import Mathlib

/-!
Verification development for the agentsmonitor PTY manager
(src/agentsmonitor-tauri/src-tauri/src/pty/manager.rs,
 src/agentsmonitor-tauri/src-tauri/src/services/agent_resolver.rs,
 src/agentsmonitor-tauri/src-tauri/src/models/session.rs).

The registry is modelled as an association list keyed by the session
identifier (the source uses a HashMap behind a mutex; every operation
takes the lock for its whole body, so each operation is an atomic
function from registry state to registry state).  Opaque OS handles
(the PTY writer, the child process, the PTY control handle) are
modelled by small records whose fields record the behaviour the next
OS call will exhibit (e.g. whether a write fails, what try_wait
returns).  Time is in milliseconds as a natural number.
-/

namespace AgentsMonitor

/-- Constant BATCH_SIZE from manager.rs line 14. -/
def BATCH_SIZE : Nat := 4096

/-- Constant BATCH_INTERVAL_MS from manager.rs line 15 (~60fps). -/
def BATCH_INTERVAL_MS : Nat := 16

/-- AgentType from models/session.rs. -/
inductive AgentType where
  | ClaudeCode
  | Codex
  | Custom
deriving DecidableEq

/-- AgentType::default_executable from models/session.rs. -/
def AgentType.default_executable : AgentType → String
  | .ClaudeCode => "claude"
  | .Codex => "codex"
  | .Custom => "agent"

/-- AgentType::executable_names from models/session.rs. -/
def AgentType.executable_names : AgentType → List String
  | .ClaudeCode => ["claude", "claude-code", "claude_code"]
  | .Codex => ["codex", "openai-codex"]
  | .Custom => ["agent"]

/-- AgentType::default_args from models/session.rs. -/
def AgentType.default_args : AgentType → List String
  | .ClaudeCode => []
  | .Codex => ["--no-alt-screen"]
  | .Custom => []

/-- AgentType::is_terminal_based from models/session.rs. -/
def AgentType.is_terminal_based : AgentType → Bool
  | .ClaudeCode => true
  | .Codex => true
  | .Custom => false

/-- PtyError from manager.rs.  Error payloads that are OS error values in
the source are modelled as their display strings. -/
inductive PtyError where
  | Pty (msg : String)
  | Io (msg : String)
  | NotFound (id : Nat)
  | ExecutableNotFound
  | SpawnFailed (msg : String)
deriving DecidableEq

/-! ## Output batcher (reader task closure in PtyManager::spawn)

The blocking reader loop is driven by the sequence of returns of
reader.read.  Each return is a ReadEvent: the absolute time (ms) at
which the read call returned, and what it returned — a non-empty chunk
of bytes (Ok n with n > 0), end of stream (Ok 0) or an error.  A trace
that contains no eof/err event models a reader still blocked in read:
the loop body after the last event has not run. -/

/-- One return value of reader.read in the batcher loop. -/
inductive ReadResult where
  | chunk (bytes : List Nat)
  | eof
  | fail (msg : String)
deriving DecidableEq

/-- A read return together with the time at which it happened. -/
structure ReadEvent where
  time : Nat
  result : ReadResult
deriving DecidableEq

/-- Mutable state of the batcher loop: the accumulated batch and the
time of the last emit (last_emit in the source; initially the task
start time). -/
structure BatchState where
  batch : List Nat
  last_emit : Nat
deriving DecidableEq

/-- An event emitted to the app handle: a terminal_output_{id} payload
or the terminal_ended_{id} marker, tagged with the time of emission. -/
inductive Emit where
  | output (time : Nat) (data : List Nat)
  | ended (time : Nat)
deriving DecidableEq

/-- Body of the Ok(n) arm of the batcher loop (manager.rs lines
118-127): extend the batch, then flush iff the batch reached
BATCH_SIZE or BATCH_INTERVAL_MS elapsed since last_emit. -/
def batchStep (st : BatchState) (t : Nat) (bytes : List Nat) :
    BatchState × List Emit :=
  let b := st.batch ++ bytes
  if BATCH_SIZE ≤ b.length ∨ BATCH_INTERVAL_MS ≤ t - st.last_emit then
    (⟨[], t⟩, [Emit.output t b])
  else
    (⟨b, st.last_emit⟩, [])

/-- After the loop breaks at time t (EOF or read error): emit the
remaining batch if non-empty, then the session-ended event
(manager.rs lines 135-141). -/
def finishEmits (st : BatchState) (t : Nat) : List Emit :=
  (if st.batch = [] then [] else [Emit.output t st.batch]) ++ [Emit.ended t]

/-- The batcher loop over a trace of read returns.  A chunk runs the
Ok(n) arm; eof or fail breaks the loop (the rest of the trace is
unreachable) and runs the trailing flush and ended emit.  A trace
ending without eof/fail leaves the task blocked in read. -/
def readerRun (st : BatchState) : List ReadEvent → List Emit
  | [] => []
  | ev :: rest =>
    match ev.result with
    | ReadResult.chunk bytes =>
      let p := batchStep st ev.time bytes
      p.2 ++ readerRun p.1 rest
    | ReadResult.eof => finishEmits st ev.time
    | ReadResult.fail _ => finishEmits st ev.time

/-- The whole reader task: starts with an empty batch and last_emit set
to the task start time t0. -/
def reader_task (t0 : Nat) (events : List ReadEvent) : List Emit :=
  readerRun ⟨[], t0⟩ events

/-! ## Sessions and the registry

TerminalSession mirrors the struct in manager.rs.  The writer handle
(Box dyn Write) is modelled by the bytes successfully written so far
plus knobs saying whether the next write_all / flush call fails; the
child handle by its OS pid and the outcome of the next try_wait call;
the master PTY handle by its current geometry and a knob for resize
failure; the reader task JoinHandle by an opaque task number. -/

/-- Model of the Box dyn Write handle taken from the PTY master. -/
structure Writer where
  written : List Nat
  write_error : Option String
  flush_error : Option String
deriving DecidableEq

/-- writer.write_all(data): appends the bytes verbatim, or fails with
the pending IO error. -/
def Writer.write_all (w : Writer) (data : List Nat) : Except String Writer :=
  match w.write_error with
  | some e => Except.error e
  | none => Except.ok { w with written := w.written ++ data }

/-- writer.flush(): succeeds leaving the stream unchanged, or fails
with the pending IO error. -/
def Writer.flush (w : Writer) : Except String Writer :=
  match w.flush_error with
  | some e => Except.error e
  | none => Except.ok w

/-- Outcome of a child.try_wait() call: Ok(None) while the process is
alive, Ok(Some(status)) once it has exited, or Err(e). -/
inductive TryWaitResult where
  | stillRunning
  | exited
  | waitError (msg : String)
deriving DecidableEq

/-- Model of the Box dyn Child handle. -/
structure Child where
  pid : Option Nat
  try_wait : TryWaitResult
deriving DecidableEq

/-- PtySize from portable_pty (rows, cols, pixel_width, pixel_height). -/
structure PtySizeM where
  rows : Nat
  cols : Nat
  pixel_width : Nat
  pixel_height : Nat
deriving DecidableEq

/-- Model of the Box dyn MasterPty handle: its geometry and whether the
next resize call fails. -/
structure MasterPty where
  size : PtySizeM
  resize_error : Option String
deriving DecidableEq

/-- TerminalSession from manager.rs lines 31-38. -/
structure TerminalSession where
  session_id : Nat
  writer : Writer
  reader_task : Nat
  child : Child
  master_pty : MasterPty
deriving DecidableEq

/-- The sessions map (HashMap Uuid TerminalSession), as an association
list.  Session identifiers (Uuid) are modelled as naturals. -/
abbrev Registry : Type := List (Nat × TerminalSession)

/-- sessions.get / get_mut: first entry with the given key. -/
def regLookup (reg : Registry) (id : Nat) : Option TerminalSession :=
  match List.find? (fun e => e.1 == id) reg with
  | some e => some e.2
  | none => none

/-- sessions.insert: HashMap insert replaces any existing entry for
the key. -/
def regInsert (reg : Registry) (id : Nat) (s : TerminalSession) : Registry :=
  (id, s) :: List.filter (fun e => e.1 != id) reg

/-- sessions.remove: drops the entry for the key. -/
def regRemove (reg : Registry) (id : Nat) : Registry :=
  List.filter (fun e => e.1 != id) reg

/-- Number of registry entries stored under a given identifier. -/
def countId (reg : Registry) (id : Nat) : Nat :=
  (List.filter (fun e => e.1 == id) reg).length

/-! ## Lifecycle operations (PtyManager methods)

Each method takes the registry lock for its whole body, so it is a
function from the registry (plus the modelled outcome of the OS calls
it makes) to the new registry and its return value.  terminate also
returns the ordered list of externally visible actions it performed,
to state ordering properties. -/

/-- PtyManager::write (manager.rs lines 166-175): look up the session
(NotFound if absent), write_all the bytes, flush; IO failures become
PtyError::Io via the From impl, and the entry is never removed. -/
def write (reg : Registry) (session_id : Nat) (data : List Nat) :
    Registry × Except PtyError Unit :=
  match regLookup reg session_id with
  | none => (reg, Except.error (PtyError.NotFound session_id))
  | some s =>
    match s.writer.write_all data with
    | Except.error e => (reg, Except.error (PtyError.Io e))
    | Except.ok w1 =>
      match w1.flush with
      | Except.error e =>
        (regInsert reg session_id { s with writer := w1 },
         Except.error (PtyError.Io e))
      | Except.ok w2 =>
        (regInsert reg session_id { s with writer := w2 }, Except.ok ())

/-- PtyManager::resize (manager.rs lines 177-193): look up the session
(NotFound if absent), forward the geometry verbatim with zero pixel
sizes; a PTY-level failure becomes PtyError::Pty. -/
def resize (reg : Registry) (session_id : Nat) (rows cols : Nat) :
    Registry × Except PtyError Unit :=
  match regLookup reg session_id with
  | none => (reg, Except.error (PtyError.NotFound session_id))
  | some s =>
    match s.master_pty.resize_error with
    | some e => (reg, Except.error (PtyError.Pty e))
    | none =>
      (regInsert reg session_id
        { s with master_pty := { s.master_pty with size := ⟨rows, cols, 0, 0⟩ } },
       Except.ok ())

/-- PtyManager::is_running (manager.rs lines 228-238): false when the
id is absent; otherwise try_wait().map(|st| st.is_none()).unwrap_or(false). -/
def is_running (reg : Registry) (session_id : Nat) : Bool :=
  match regLookup reg session_id with
  | some s =>
    match s.child.try_wait with
    | TryWaitResult.stillRunning => true
    | TryWaitResult.exited => false
    | TryWaitResult.waitError _ => false
  | none => false

/-- Externally visible steps of PtyManager::terminate, in program
order. -/
inductive Action where
  | removeEntry (id : Nat)
  | sendSigterm (pid : Nat)
  | sleepMs (ms : Nat)
  | checkTryWait
  | sendSigkill (pid : Nat)
  | killChild
  | abortReader (task : Nat)
deriving DecidableEq

instance {ε α : Type} [DecidableEq ε] [DecidableEq α] :
    DecidableEq (Except ε α) := fun x y =>
  match x, y with
  | Except.ok a, Except.ok b =>
    if h : a = b then isTrue (by rw [h])
    else isFalse (by intro hc; cases hc; exact h rfl)
  | Except.ok _, Except.error _ => isFalse (by intro hc; cases hc)
  | Except.error _, Except.ok _ => isFalse (by intro hc; cases hc)
  | Except.error e, Except.error f =>
    if h : e = f then isTrue (by rw [h])
    else isFalse (by intro hc; cases hc; exact h rfl)

/-- Return value of the terminate model: the new registry, the Result,
and the ordered action trace. -/
structure TerminateResult where
  registry : Registry
  result : Except PtyError Unit
  actions : List Action
deriving DecidableEq

/-- PtyManager::terminate (manager.rs lines 195-226): remove the entry
first; if it was present, SIGTERM (when the pid is known), sleep 2
seconds, re-check with try_wait (an Err there returns PtyError::Pty
early); if the child is still alive, SIGKILL plus child.kill(); then
abort the reader task.  An absent id is a successful no-op. -/
def terminate (reg : Registry) (session_id : Nat) : TerminateResult :=
  match regLookup reg session_id with
  | none => ⟨reg, Except.ok (), []⟩
  | some s =>
    let reg1 := regRemove reg session_id
    let sigterm : List Action :=
      match s.child.pid with
      | some p => [Action.sendSigterm p]
      | none => []
    let pre := Action.removeEntry session_id ::
      sigterm ++ [Action.sleepMs 2000, Action.checkTryWait]
    match s.child.try_wait with
    | TryWaitResult.waitError e =>
      ⟨reg1, Except.error (PtyError.Pty e), pre⟩
    | TryWaitResult.exited =>
      ⟨reg1, Except.ok (), pre ++ [Action.abortReader s.reader_task]⟩
    | TryWaitResult.stillRunning =>
      let sigkill : List Action :=
        match s.child.pid with
        | some p => [Action.sendSigkill p]
        | none => []
      ⟨reg1, Except.ok (),
        pre ++ sigkill ++ [Action.killChild, Action.abortReader s.reader_task]⟩

/-- Whether try_wait reported the child as exited (the Ok(Some) arm of
cleanup_finished). -/
def childExited (s : TerminalSession) : Bool :=
  match s.child.try_wait with
  | TryWaitResult.exited => true
  | _ => false

/-- PtyManager::cleanup_finished (manager.rs lines 240-256): retain the
sessions whose child has not exited, return the reaped ids. -/
def cleanup_finished (reg : Registry) : Registry × List Nat :=
  (List.filter (fun e => !childExited e.2) reg,
   (List.filter (fun e => childExited e.2) reg).map Prod.fst)

/-! ## Spawn pipeline pieces -/

/-- The synthetic DSR reply "\x1b[1;1R" written to Codex sessions,
as raw bytes. -/
def cursorPositionResponse : List Nat := [27, 91, 49, 59, 49, 82]

/-- The delayed write performed for one agent type after registration. -/
structure CodexQuirk where
  delay_ms : Nat
  bytes : List Nat
deriving DecidableEq

/-- The per-agent-type workaround in PtyManager::spawn lines 155-161:
only Codex gets the 100 ms delay followed by the cursor-position
write. -/
def codexQuirk (agent_type : AgentType) : Option CodexQuirk :=
  match agent_type with
  | AgentType.Codex => some ⟨100, cursorPositionResponse⟩
  | _ => none

/-- Tail of PtyManager::spawn (manager.rs lines 144-163): insert the
new TerminalSession into the registry, run the Codex workaround when
applicable with its write result discarded, and return Ok(process_id). -/
def spawnRegister (reg : Registry) (session_id : Nat) (s : TerminalSession)
    (agent_type : AgentType) (process_id : Int) :
    Registry × Except PtyError Int :=
  let reg1 := regInsert reg session_id s
  match codexQuirk agent_type with
  | none => (reg1, Except.ok process_id)
  | some q => ((write reg1 session_id q.bytes).1, Except.ok process_id)

/-! ## Executable resolver (services/agent_resolver.rs)

The resolver is a pure function of filesystem state.  That state is
modelled by FsModel: the home directory, the is_executable predicate
(existence plus an execute permission bit), the validated result of
running /usr/bin/which on a name, and the directory listings of the
three version-manager roots (none models a root that does not exist). -/

/-- Filesystem state as seen by AgentResolver. -/
structure FsModel where
  home_dir : String
  is_executable : String → Bool
  which : String → Option String
  nvm_node_dirs : Option (List String)
  fnm_node_dirs : Option (List String)
  fnm_alt_node_dirs : Option (List String)

/-- PathBuf::join for the string model of paths. -/
def joinPath (dir name : String) : String := dir ++ "/" ++ name

/-- AgentResolver::candidate_paths: the ten common installation
directories crossed with the agent name variants, followed by the
nvm, fnm and macOS-fnm per-version bin directories crossed with the
same variants. -/
def candidate_paths (fs : FsModel) (agent_type : AgentType) : List String :=
  let home := fs.home_dir
  let names := agent_type.executable_names
  let dirs : List String :=
    [joinPath home ".local/bin", joinPath home "bin",
     joinPath home ".npm-global/bin", joinPath home ".npm/bin",
     joinPath home ".volta/bin", "/opt/homebrew/bin", "/usr/local/bin",
     "/usr/bin", "/bin", "/opt/local/bin"]
  let base := dirs.flatMap (fun d => names.map (fun n => joinPath d n))
  let nvm :=
    match fs.nvm_node_dirs with
    | none => []
    | some entries =>
      entries.flatMap (fun e => names.map (fun n => joinPath (joinPath e "bin") n))
  let fnm :=
    match fs.fnm_node_dirs with
    | none => []
    | some entries =>
      entries.flatMap
        (fun e => names.map (fun n => joinPath (joinPath e "installation/bin") n))
  let fnmAlt :=
    match fs.fnm_alt_node_dirs with
    | none => []
    | some entries =>
      entries.flatMap
        (fun e => names.map (fun n => joinPath (joinPath e "installation/bin") n))
  base ++ nvm ++ fnm ++ fnmAlt

/-- The candidate-path scan followed by the which fallback
(agent_resolver.rs lines 21-35). -/
def resolveSearch (fs : FsModel) (agent_type : AgentType) : Option String :=
  match List.find? fs.is_executable (candidate_paths fs agent_type) with
  | some p => some p
  | none => List.findSome? fs.which agent_type.executable_names

/-- AgentResolver::resolve (agent_resolver.rs lines 12-36): the user
override wins when it is an existing executable file; otherwise the
candidate scan, then the which fallback. -/
def resolve (fs : FsModel) (agent_type : AgentType)
    (override_path : Option String) : Option String :=
  match override_path with
  | some p => if fs.is_executable p then some p else resolveSearch fs agent_type
  | none => resolveSearch fs agent_type

/-- Step 1 of PtyManager::spawn (manager.rs lines 59-61): a failed
resolution is PtyError::ExecutableNotFound. -/
def spawnResolve (fs : FsModel) (agent_type : AgentType)
    (override_executable : Option String) : Except PtyError String :=
  match resolve fs agent_type override_executable with
  | some p => Except.ok p
  | none => Except.error PtyError.ExecutableNotFound

/-! ## Concrete fixtures used by witnesses and counterexamples -/

/-- A writer with no pending failures. -/
def okWriter : Writer := ⟨[], none, none⟩

/-- A running child with pid 42. -/
def runningChild : Child := ⟨some 42, TryWaitResult.stillRunning⟩

/-- A child already observed as exited. -/
def exitedChild : Child := ⟨some 42, TryWaitResult.exited⟩

/-- A child whose next try_wait call fails. -/
def badWaitChild : Child := ⟨some 42, TryWaitResult.waitError "wait failed"⟩

/-- The initial 24x80 PTY geometry with a healthy resize call. -/
def defaultPty : MasterPty := ⟨⟨24, 80, 0, 0⟩, none⟩

/-- A healthy running session. -/
def sampleSession (sid task : Nat) : TerminalSession :=
  ⟨sid, okWriter, task, runningChild, defaultPty⟩

/-- A session whose child has exited. -/
def exitedSession (sid task : Nat) : TerminalSession :=
  ⟨sid, okWriter, task, exitedChild, defaultPty⟩

/-- A session whose next try_wait call errors. -/
def badWaitSession (sid task : Nat) : TerminalSession :=
  ⟨sid, okWriter, task, badWaitChild, defaultPty⟩

/-- A filesystem in which exactly /usr/local/bin/claude is executable
and the which fallback finds nothing. -/
def fsSample : FsModel :=
  { home_dir := "/home/u"
    is_executable := fun p => p == "/usr/local/bin/claude"
    which := fun _ => none
    nvm_node_dirs := none
    fnm_node_dirs := none
    fnm_alt_node_dirs := none }

/-! ## Registry helper lemmas -/

theorem regLookup_insert_self (reg : Registry) (id : Nat) (s : TerminalSession) :
    regLookup (regInsert reg id s) id = some s := by
  simp [regLookup, regInsert, List.find?]

theorem regLookup_remove_self (reg : Registry) (id : Nat) :
    regLookup (regRemove reg id) id = none := by
  unfold regLookup regRemove
  have h : List.find? (fun e => e.1 == id)
      (List.filter (fun e => e.1 != id) reg) = none := by
    rw [List.find?_eq_none]
    intro x hx
    have hq := (List.mem_filter.mp hx).2
    simp only [bne_iff_ne, ne_eq] at hq
    simp [hq]
  rw [h]

theorem countId_insert_self (reg : Registry) (id : Nat) (s : TerminalSession) :
    countId (regInsert reg id s) id = 1 := by
  unfold countId regInsert
  have hfalse : ∀ e : Nat × TerminalSession,
      ¬ ((fun e : Nat × TerminalSession => e.1 == id) e = true ∧
         (fun e : Nat × TerminalSession => e.1 != id) e = true) := by
    intro e he
    rcases he with ⟨h1, h2⟩
    simp only [beq_iff_eq] at h1
    simp [h1] at h2
  have h : List.filter (fun e : Nat × TerminalSession => e.1 == id)
      (List.filter (fun e : Nat × TerminalSession => e.1 != id) reg) = [] := by
    rw [List.filter_eq_nil_iff]
    intro x hx
    intro hxe
    exact hfalse x ⟨hxe, (List.mem_filter.mp hx).2⟩
  simp [List.filter_cons, h]

theorem regInsert_member (reg : Registry) (id : Nat) (s : TerminalSession) :
    (id, s) ∈ regInsert reg id s := by
  simp [regInsert]

theorem regInsert_drops_old (reg : Registry) (id : Nat) (s s0 : TerminalSession)
    (hne : s0 ≠ s) : (id, s0) ∉ regInsert reg id s := by
  intro hmem
  rcases List.mem_cons.mp hmem with h | h
  · exact hne (congrArg Prod.snd h)
  · have := (List.mem_filter.mp h).2
    simp at this

/-! ## Claim theorems -/

/-- Claim C1 counterexample: a single 2-byte burst at time 0 with no
further reads is never flushed — the emission list is empty no matter
how much time passes, because the timer condition is only evaluated
when a read returns; with an end-of-stream at 1000 ms the first flush
happens only then, about a second after the ~16 ms the claim
promises. -/
theorem C1_counterexample :
    reader_task 0 [⟨0, ReadResult.chunk [104, 105]⟩] = [] ∧
    reader_task 0 [⟨0, ReadResult.chunk [104, 105]⟩, ⟨1000, ReadResult.eof⟩]
      = [Emit.output 1000 [104, 105], Emit.ended 1000] := by
  exact ⟨rfl, rfl⟩

/-- Claim C1 (amended): the batcher evaluates the flush condition only
at the moment a read returns data.  Upon a read that brings the batch
to 4096 bytes it flushes immediately, before the 16 ms timer; upon a
read arriving once 16 ms have elapsed since the last flush it flushes
even below the threshold; but a single burst of N < 4096 bytes
followed by no further reads is not flushed after ~16 ms — it stays
buffered until end-of-stream, where it is flushed before the ended
event. -/
theorem C1_flush_only_at_reads (t0 t te : Nat) (bytes : List Nat) :
    (BATCH_SIZE ≤ bytes.length →
      reader_task t0 [⟨t, ReadResult.chunk bytes⟩] = [Emit.output t bytes]) ∧
    (bytes.length < BATCH_SIZE → t - t0 < BATCH_INTERVAL_MS →
      reader_task t0 [⟨t, ReadResult.chunk bytes⟩] = []) ∧
    (bytes ≠ [] → bytes.length < BATCH_SIZE → t - t0 < BATCH_INTERVAL_MS →
      reader_task t0 [⟨t, ReadResult.chunk bytes⟩, ⟨te, ReadResult.eof⟩]
        = [Emit.output te bytes, Emit.ended te]) ∧
    (BATCH_INTERVAL_MS ≤ t - t0 →
      reader_task t0 [⟨t, ReadResult.chunk bytes⟩] = [Emit.output t bytes]) := by
  refine ⟨?_, ?_, ?_, ?_⟩
  · intro h
    simp [reader_task, readerRun, batchStep, h]
  · intro h1 h2
    have n1 : ¬ BATCH_SIZE ≤ bytes.length := Nat.not_le.mpr h1
    have n2 : ¬ BATCH_INTERVAL_MS ≤ t - t0 := Nat.not_le.mpr h2
    simp [reader_task, readerRun, batchStep, n1, n2]
  · intro hne h1 h2
    have n1 : ¬ BATCH_SIZE ≤ bytes.length := Nat.not_le.mpr h1
    have n2 : ¬ BATCH_INTERVAL_MS ≤ t - t0 := Nat.not_le.mpr h2
    simp [reader_task, readerRun, batchStep, finishEmits, n1, n2, hne]
  · intro h
    simp [reader_task, readerRun, batchStep, h]

/-- Witness for C1_flush_only_at_reads at concrete inputs: a full
4096-byte burst flushes at once; a 1-byte burst at 5 ms is silent; the
same burst followed by EOF at 500 ms is flushed only there; a 1-byte
read arriving at 20 ms flushes immediately. -/
theorem C1_flush_only_at_reads_witness :
    reader_task 0 [⟨0, ReadResult.chunk (List.replicate 4096 65)⟩]
      = [Emit.output 0 (List.replicate 4096 65)] ∧
    reader_task 0 [⟨5, ReadResult.chunk [104]⟩] = [] ∧
    reader_task 0 [⟨5, ReadResult.chunk [104]⟩, ⟨500, ReadResult.eof⟩]
      = [Emit.output 500 [104], Emit.ended 500] ∧
    reader_task 0 [⟨20, ReadResult.chunk [104]⟩] = [Emit.output 20 [104]] :=
  ⟨(C1_flush_only_at_reads 0 0 0 (List.replicate 4096 65)).1
      (by rw [List.length_replicate]; decide),
   (C1_flush_only_at_reads 0 5 0 [104]).2.1 (by decide) (by decide),
   (C1_flush_only_at_reads 0 5 500 [104]).2.2.1 (by decide) (by decide)
      (by decide),
   (C1_flush_only_at_reads 0 20 0 [104]).2.2.2 (by decide)⟩

/-- A registry already holding an entry for id 7. -/
def regC2 : Registry := [(7, sampleSession 7 1)]

/-- A registry holding one healthy session under id 5. -/
def regC3 : Registry := [(5, sampleSession 5 3)]

/-- Claim C2 counterexample: a second spawn with id 7, which is already
registered, is not rejected — spawnRegister returns Ok(process_id) and
the registry now holds the new session in place of the old one. -/
theorem C2_counterexample :
    (spawnRegister regC2 7 (sampleSession 7 2) AgentType.Custom 99).2
      = Except.ok 99 ∧
    regLookup (spawnRegister regC2 7 (sampleSession 7 2) AgentType.Custom 99).1 7
      = some (sampleSession 7 2) ∧
    sampleSession 7 2 ≠ sampleSession 7 1 :=
  ⟨rfl, rfl, by decide⟩

/-- Claim C2 (amended): at most one Terminal Session exists per
identifier (the insert keeps exactly one entry for the id), but a
second spawn with an identifier already present is not rejected: it
returns Ok(process_id) as a normal success and silently replaces the
existing entry. -/
theorem C2_insert_replaces (reg : Registry) (id : Nat) (s0 s : TerminalSession)
    (a : AgentType) (pid : Int) (h : regLookup reg id = some s0)
    (ha : a ≠ AgentType.Codex) :
    (spawnRegister reg id s a pid).2 = Except.ok pid ∧
    regLookup (spawnRegister reg id s a pid).1 id = some s ∧
    countId (spawnRegister reg id s a pid).1 id = 1 ∧
    (s0 ≠ s → (id, s0) ∉ (spawnRegister reg id s a pid).1) := by
  have hq : codexQuirk a = none := by
    cases a
    · rfl
    · exact absurd rfl ha
    · rfl
  have h2 : spawnRegister reg id s a pid = (regInsert reg id s, Except.ok pid) := by
    simp [spawnRegister, hq]
  rw [h2]
  exact ⟨rfl, regLookup_insert_self reg id s, countId_insert_self reg id s,
    fun hne => regInsert_drops_old reg id s s0 hne⟩

/-- Witness for C2_insert_replaces: a concrete double spawn under id 7
succeeds and evicts the original session. -/
theorem C2_insert_replaces_witness :
    (spawnRegister regC2 7 (sampleSession 7 3) AgentType.Custom 55).2
      = Except.ok 55 ∧
    (7, sampleSession 7 1) ∉
      (spawnRegister regC2 7 (sampleSession 7 3) AgentType.Custom 55).1 :=
  ⟨(C2_insert_replaces regC2 7 (sampleSession 7 1) (sampleSession 7 3)
      AgentType.Custom 55 (by decide) (by decide)).1,
   (C2_insert_replaces regC2 7 (sampleSession 7 1) (sampleSession 7 3)
      AgentType.Custom 55 (by decide) (by decide)).2.2.2 (by decide)⟩

/-- Claim C3: for a registered session (with a known pid), terminate
removes the registry entry before the SIGTERM is sent, sleeps the
2-second grace period, re-checks liveness, escalates to SIGKILL plus
child.kill() only when the child is still alive, aborts the reader
task last, and after the removal no write or resize for that id can
succeed. -/
theorem C3_terminate_order (reg : Registry) (id : Nat) (s : TerminalSession)
    (p : Nat) (h : regLookup reg id = some s) (hp : s.child.pid = some p) :
    (s.child.try_wait = TryWaitResult.exited →
      terminate reg id = ⟨regRemove reg id, Except.ok (),
        [Action.removeEntry id, Action.sendSigterm p, Action.sleepMs 2000,
         Action.checkTryWait, Action.abortReader s.reader_task]⟩) ∧
    (s.child.try_wait = TryWaitResult.stillRunning →
      terminate reg id = ⟨regRemove reg id, Except.ok (),
        [Action.removeEntry id, Action.sendSigterm p, Action.sleepMs 2000,
         Action.checkTryWait, Action.sendSigkill p, Action.killChild,
         Action.abortReader s.reader_task]⟩) ∧
    regLookup (regRemove reg id) id = none ∧
    (∀ data, (write (regRemove reg id) id data).2
        = Except.error (PtyError.NotFound id)) ∧
    (∀ rows cols, (resize (regRemove reg id) id rows cols).2
        = Except.error (PtyError.NotFound id)) := by
  refine ⟨?_, ?_, regLookup_remove_self reg id, ?_, ?_⟩
  · intro hw
    simp [terminate, h, hp, hw]
  · intro hw
    simp [terminate, h, hp, hw]
  · intro data
    simp [write, regLookup_remove_self reg id]
  · intro rows cols
    simp [resize, regLookup_remove_self reg id]

/-- Witness for C3_terminate_order: terminating the concrete running
session 5 performs remove, SIGTERM 42, 2 s sleep, liveness re-check,
SIGKILL 42, kill, and aborts reader task 3, in that order. -/
theorem C3_terminate_order_witness :
    terminate regC3 5 = ⟨regRemove regC3 5, Except.ok (),
      [Action.removeEntry 5, Action.sendSigterm 42, Action.sleepMs 2000,
       Action.checkTryWait, Action.sendSigkill 42, Action.killChild,
       Action.abortReader 3]⟩ :=
  (C3_terminate_order regC3 5 (sampleSession 5 3) 42 (by decide)
    (by decide)).2.1 (by decide)

theorem terminate_absent (reg : Registry) (id : Nat)
    (h : regLookup reg id = none) :
    terminate reg id = ⟨reg, Except.ok (), []⟩ := by
  simp [terminate, h]

/-- Claim C4: terminate is idempotent — an id absent from the registry
is a successful no-op, and a second terminate in succession on the
same id is always a successful no-op, whatever the first call did. -/
theorem C4_terminate_idempotent (reg : Registry) (id : Nat) :
    (regLookup reg id = none → terminate reg id = ⟨reg, Except.ok (), []⟩) ∧
    terminate (terminate reg id).registry id
      = ⟨(terminate reg id).registry, Except.ok (), []⟩ := by
  constructor
  · intro h
    exact terminate_absent reg id h
  · have h : regLookup (terminate reg id).registry id = none := by
      cases hl : regLookup reg id with
      | none => rw [terminate_absent reg id hl]; exact hl
      | some s =>
        cases hw : s.child.try_wait <;>
          simp [terminate, hl, hw, regLookup_remove_self]
    exact terminate_absent _ id h

/-- Witness for C4_terminate_idempotent: terminating the unknown id 9
on an empty registry is a successful no-op, and a second terminate of
id 5 right after the first is a successful no-op. -/
theorem C4_terminate_idempotent_witness :
    terminate ([] : Registry) 9 = ⟨[], Except.ok (), []⟩ ∧
    terminate (terminate regC3 5).registry 5
      = ⟨(terminate regC3 5).registry, Except.ok (), []⟩ :=
  ⟨(C4_terminate_idempotent [] 9).1 (by decide),
   (C4_terminate_idempotent regC3 5).2⟩

/-- Claim C5: when a read returns end-of-stream or an error the batcher
stops reading (later events are unreachable), a read error is handled
identically to EOF, and the emissions are the remaining partial batch
(when non-empty) followed by the session-ended event. -/
theorem C5_eof_flush_then_ended (st : BatchState) (t : Nat) (msg : String)
    (rest : List ReadEvent) :
    readerRun st (⟨t, ReadResult.eof⟩ :: rest)
      = readerRun st [⟨t, ReadResult.eof⟩] ∧
    readerRun st (⟨t, ReadResult.fail msg⟩ :: rest)
      = readerRun st [⟨t, ReadResult.eof⟩] ∧
    (st.batch ≠ [] →
      readerRun st [⟨t, ReadResult.eof⟩]
        = [Emit.output t st.batch, Emit.ended t]) ∧
    (st.batch = [] → readerRun st [⟨t, ReadResult.eof⟩] = [Emit.ended t]) := by
  refine ⟨rfl, rfl, ?_, ?_⟩
  · intro h
    simp [readerRun, finishEmits, h]
  · intro h
    simp [readerRun, finishEmits, h]

/-- Witness for C5_eof_flush_then_ended: a read error at 9 ms with one
pending byte behaves like EOF, flushes the byte, then emits ended; an
empty batch yields only the ended event. -/
theorem C5_eof_flush_then_ended_witness :
    readerRun ⟨[104], 0⟩ [⟨9, ReadResult.fail "broken pipe"⟩,
        ⟨10, ReadResult.chunk [1]⟩]
      = readerRun ⟨[104], 0⟩ [⟨9, ReadResult.eof⟩] ∧
    readerRun ⟨[104], 0⟩ [⟨9, ReadResult.eof⟩]
      = [Emit.output 9 [104], Emit.ended 9] ∧
    readerRun ⟨([] : List Nat), 0⟩ [⟨9, ReadResult.eof⟩] = [Emit.ended 9] :=
  ⟨(C5_eof_flush_then_ended ⟨[104], 0⟩ 9 "broken pipe"
      [⟨10, ReadResult.chunk [1]⟩]).2.1,
   (C5_eof_flush_then_ended ⟨[104], 0⟩ 9 "broken pipe" []).2.2.1 (by decide),
   (C5_eof_flush_then_ended ⟨[], 0⟩ 9 "broken pipe" []).2.2.2 rfl⟩

/-- A session whose next write_all call fails. -/
def badWriteSession (sid task : Nat) : TerminalSession :=
  ⟨sid, ⟨[], some "broken pipe", none⟩, task, runningChild, defaultPty⟩

/-- A session whose write_all succeeds but whose flush fails. -/
def badFlushSession (sid task : Nat) : TerminalSession :=
  ⟨sid, ⟨[], none, some "flush fail"⟩, task, runningChild, defaultPty⟩

/-- A filesystem with no executables and an empty which fallback. -/
def fsEmpty : FsModel :=
  { home_dir := "/home/u"
    is_executable := fun _ => false
    which := fun _ => none
    nvm_node_dirs := none
    fnm_node_dirs := none
    fnm_alt_node_dirs := none }

/-- Claim C6: write appends the bytes verbatim to the session's stream
and flushes; a failing write or flush surfaces as PtyError::Io, and in
every case the session stays in the registry — write never removes an
entry. -/
theorem C6_write_verbatim (reg : Registry) (id : Nat) (s : TerminalSession)
    (data : List Nat) (h : regLookup reg id = some s) :
    (s.writer.write_error = none → s.writer.flush_error = none →
      (write reg id data).2 = Except.ok () ∧
      regLookup (write reg id data).1 id
        = some { s with writer :=
            { s.writer with written := s.writer.written ++ data } }) ∧
    (∀ e, s.writer.write_error = some e →
      (write reg id data).2 = Except.error (PtyError.Io e) ∧
      (write reg id data).1 = reg) ∧
    (∀ e, s.writer.write_error = none → s.writer.flush_error = some e →
      (write reg id data).2 = Except.error (PtyError.Io e) ∧
      (regLookup (write reg id data).1 id).isSome = true) := by
  refine ⟨?_, ?_, ?_⟩
  · intro hw hf
    have hww : write reg id data
        = (regInsert reg id { s with writer :=
            { s.writer with written := s.writer.written ++ data } },
           Except.ok ()) := by
      simp [write, h, Writer.write_all, Writer.flush, hw, hf]
    rw [hww]
    exact ⟨rfl, regLookup_insert_self ..⟩
  · intro e hw
    constructor <;> simp [write, h, Writer.write_all, hw]
  · intro e hw hf
    have hww : write reg id data
        = (regInsert reg id { s with writer :=
            { s.writer with written := s.writer.written ++ data } },
           Except.error (PtyError.Io e)) := by
      simp [write, h, Writer.write_all, Writer.flush, hw, hf]
    rw [hww]
    exact ⟨rfl, by rw [regLookup_insert_self]; rfl⟩

/-- Witness for C6_write_verbatim: a healthy session receives the bytes
verbatim; a broken pipe and a failing flush surface as Io errors with
the session still registered. -/
theorem C6_write_verbatim_witness :
    (write [(1, sampleSession 1 0)] 1 [104, 105]).2 = Except.ok () ∧
    regLookup (write [(1, sampleSession 1 0)] 1 [104, 105]).1 1
      = some { sampleSession 1 0 with writer :=
          { okWriter with written := [104, 105] } } ∧
    (write [(2, badWriteSession 2 0)] 2 [104]).2
      = Except.error (PtyError.Io "broken pipe") ∧
    (write [(3, badFlushSession 3 0)] 3 [104]).2
      = Except.error (PtyError.Io "flush fail") ∧
    (regLookup (write [(3, badFlushSession 3 0)] 3 [104]).1 3).isSome = true :=
  ⟨((C6_write_verbatim [(1, sampleSession 1 0)] 1 (sampleSession 1 0)
      [104, 105] (by decide)).1 rfl rfl).1,
   ((C6_write_verbatim [(1, sampleSession 1 0)] 1 (sampleSession 1 0)
      [104, 105] (by decide)).1 rfl rfl).2,
   ((C6_write_verbatim [(2, badWriteSession 2 0)] 2 (badWriteSession 2 0)
      [104] (by decide)).2.1 "broken pipe" rfl).1,
   ((C6_write_verbatim [(3, badFlushSession 3 0)] 3 (badFlushSession 3 0)
      [104] (by decide)).2.2 "flush fail" rfl rfl).1,
   ((C6_write_verbatim [(3, badFlushSession 3 0)] 3 (badFlushSession 3 0)
      [104] (by decide)).2.2 "flush fail" rfl rfl).2⟩

/-- Claim C7: for an identifier absent from the registry, write and
resize return NotFound and is_running returns false; is_running also
returns false for a registered session whose child has exited, so the
two cases are indistinguishable through is_running alone. -/
theorem C7_unknown_and_exited (reg : Registry) (id jd : Nat)
    (s : TerminalSession) (data : List Nat) (rows cols : Nat)
    (h : regLookup reg id = none) (hj : regLookup reg jd = some s)
    (hx : s.child.try_wait = TryWaitResult.exited) :
    (write reg id data).2 = Except.error (PtyError.NotFound id) ∧
    (resize reg id rows cols).2 = Except.error (PtyError.NotFound id) ∧
    is_running reg id = false ∧
    is_running reg jd = false := by
  refine ⟨?_, ?_, ?_, ?_⟩
  · simp [write, h]
  · simp [resize, h]
  · simp [is_running, h]
  · simp [is_running, hj, hx]

/-- Witness for C7_unknown_and_exited: with only the exited session 5
registered, id 9 gets NotFound everywhere and both ids probe as not
running. -/
theorem C7_unknown_and_exited_witness :
    (write [(5, exitedSession 5 1)] 9 [104]).2
      = Except.error (PtyError.NotFound 9) ∧
    (resize [(5, exitedSession 5 1)] 9 30 100).2
      = Except.error (PtyError.NotFound 9) ∧
    is_running [(5, exitedSession 5 1)] 9 = false ∧
    is_running [(5, exitedSession 5 1)] 5 = false :=
  C7_unknown_and_exited [(5, exitedSession 5 1)] 9 5 (exitedSession 5 1)
    [104] 30 100 (by decide) (by decide) rfl

/-- Claim C8: exactly the Codex agent type triggers the workaround — a
100 ms delay then the cursor-position reply ESC [ 1 ; 1 R written to
the session input — and spawn returns Ok(process_id) for every agent
type and writer state, so a failing workaround write is swallowed. -/
theorem C8_codex_quirk (reg : Registry) (id : Nat) (s : TerminalSession)
    (a : AgentType) (pid : Int) :
    cursorPositionResponse = "\x1b[1;1R".data.map Char.toNat ∧
    codexQuirk AgentType.Codex = some ⟨100, cursorPositionResponse⟩ ∧
    (a ≠ AgentType.Codex → codexQuirk a = none) ∧
    (spawnRegister reg id s a pid).2 = Except.ok pid ∧
    (s.writer.write_error = none → s.writer.flush_error = none →
      regLookup (spawnRegister reg id s AgentType.Codex pid).1 id
        = some { s with writer := { s.writer with
            written := s.writer.written ++ cursorPositionResponse } }) := by
  refine ⟨by decide, rfl, ?_, ?_, ?_⟩
  · intro ha
    cases a
    · rfl
    · exact absurd rfl ha
    · rfl
  · cases a <;> simp [spawnRegister, codexQuirk]
  · intro hw hf
    have hl : regLookup (regInsert reg id s) id = some s :=
      regLookup_insert_self reg id s
    have hww : write (regInsert reg id s) id cursorPositionResponse
        = (regInsert (regInsert reg id s) id { s with writer :=
            { s.writer with
              written := s.writer.written ++ cursorPositionResponse } },
           Except.ok ()) := by
      simp [write, hl, Writer.write_all, Writer.flush, hw, hf]
    simp [spawnRegister, codexQuirk, hww, regLookup_insert_self]

/-- Witness for C8_codex_quirk: spawning Codex session 4 succeeds and
leaves the six DSR-reply bytes written to its input; ClaudeCode gets
no quirk. -/
theorem C8_codex_quirk_witness :
    codexQuirk AgentType.ClaudeCode = none ∧
    (spawnRegister [] 4 (sampleSession 4 0) AgentType.Codex 77).2
      = Except.ok 77 ∧
    regLookup (spawnRegister [] 4 (sampleSession 4 0) AgentType.Codex 77).1 4
      = some { sampleSession 4 0 with writer :=
          { okWriter with written := cursorPositionResponse } } :=
  ⟨(C8_codex_quirk [] 4 (sampleSession 4 0) AgentType.ClaudeCode 77).2.2.1
      (by decide),
   (C8_codex_quirk [] 4 (sampleSession 4 0) AgentType.Codex 77).2.2.2.1,
   (C8_codex_quirk [] 4 (sampleSession 4 0) AgentType.Codex 77).2.2.2.2
      rfl rfl⟩

/-- Claim C9: resolve follows the deterministic priority — an existing
executable override wins; otherwise the first hit of the ordered
candidate scan; otherwise the which fallback over the name variants —
it returns none exactly when all three stages fail, and spawn turns
that none into PtyError::ExecutableNotFound. -/
theorem C9_resolver_priority (fs : FsModel) (a : AgentType) (p : String)
    (ov : Option String) :
    (fs.is_executable p = true → resolve fs a (some p) = some p) ∧
    (∀ q, fs.is_executable p = false →
      List.find? fs.is_executable (candidate_paths fs a) = some q →
      resolve fs a (some p) = some q) ∧
    (∀ q, List.find? fs.is_executable (candidate_paths fs a) = some q →
      resolve fs a none = some q) ∧
    (fs.is_executable p = false →
      List.find? fs.is_executable (candidate_paths fs a) = none →
      resolve fs a (some p)
        = List.findSome? fs.which a.executable_names) ∧
    (resolve fs a ov = none →
      (∀ r, ov = some r → fs.is_executable r = false) ∧
      List.find? fs.is_executable (candidate_paths fs a) = none ∧
      List.findSome? fs.which a.executable_names = none) ∧
    (resolve fs a ov = none →
      spawnResolve fs a ov = Except.error PtyError.ExecutableNotFound) ∧
    (∀ r, resolve fs a ov = some r → spawnResolve fs a ov = Except.ok r) := by
  refine ⟨?_, ?_, ?_, ?_, ?_, ?_, ?_⟩
  · intro h
    simp [resolve, h]
  · intro q h hf
    simp [resolve, resolveSearch, h, hf]
  · intro q hf
    simp [resolve, resolveSearch, hf]
  · intro h hf
    simp [resolve, resolveSearch, h, hf]
  · intro hn
    have hs : resolveSearch fs a = none := by
      cases ov with
      | none => simpa [resolve] using hn
      | some r =>
        by_cases hr : fs.is_executable r
        · simp [resolve, hr] at hn
        · simpa [resolve, hr] using hn
    have hfind : List.find? fs.is_executable (candidate_paths fs a) = none := by
      cases hf : List.find? fs.is_executable (candidate_paths fs a) with
      | none => rfl
      | some q => simp [resolveSearch, hf] at hs
    have hwhich : List.findSome? fs.which a.executable_names = none := by
      have hs2 := hs
      simp only [resolveSearch, hfind] at hs2
      exact hs2
    refine ⟨?_, hfind, hwhich⟩
    intro r hrov
    subst hrov
    cases hcase : fs.is_executable r with
    | false => rfl
    | true => simp [resolve, hcase] at hn
  · intro hn
    simp [spawnResolve, hn]
  · intro r hr
    simp [spawnResolve, hr]

/-- Witness for C9_resolver_priority: with only /usr/local/bin/claude
executable, a non-executable override falls through to the candidate
scan and an executable override wins; an empty filesystem yields
ExecutableNotFound. -/
theorem C9_resolver_priority_witness :
    resolve fsSample AgentType.ClaudeCode (some "/opt/x")
      = some "/usr/local/bin/claude" ∧
    resolve fsSample AgentType.ClaudeCode (some "/usr/local/bin/claude")
      = some "/usr/local/bin/claude" ∧
    spawnResolve fsEmpty AgentType.Custom none
      = Except.error PtyError.ExecutableNotFound :=
  ⟨(C9_resolver_priority fsSample AgentType.ClaudeCode "/opt/x" none).2.1
      "/usr/local/bin/claude" (by decide) (by decide),
   (C9_resolver_priority fsSample AgentType.ClaudeCode "/usr/local/bin/claude"
      none).1 (by decide),
   (C9_resolver_priority fsEmpty AgentType.Custom "" none).2.2.2.2.2.1
      (by decide)⟩

/-- Claim C10: when the post-grace try_wait re-check fails, terminate
returns PtyError::Pty with the registry entry already removed, and on
that path neither a SIGKILL, nor child.kill(), nor the reader-task
abort ever happens. -/
theorem C10_terminate_trywait_error (reg : Registry) (id : Nat)
    (s : TerminalSession) (e : String) (p : Nat)
    (h : regLookup reg id = some s)
    (hw : s.child.try_wait = TryWaitResult.waitError e)
    (hp : s.child.pid = some p) :
    terminate reg id = ⟨regRemove reg id, Except.error (PtyError.Pty e),
      [Action.removeEntry id, Action.sendSigterm p, Action.sleepMs 2000,
       Action.checkTryWait]⟩ ∧
    regLookup (terminate reg id).registry id = none ∧
    (∀ task, Action.abortReader task ∉ (terminate reg id).actions) ∧
    (∀ q, Action.sendSigkill q ∉ (terminate reg id).actions) ∧
    Action.killChild ∉ (terminate reg id).actions := by
  have ht : terminate reg id = ⟨regRemove reg id,
      Except.error (PtyError.Pty e),
      [Action.removeEntry id, Action.sendSigterm p, Action.sleepMs 2000,
       Action.checkTryWait]⟩ := by
    simp [terminate, h, hw, hp]
  refine ⟨ht, ?_, ?_, ?_, ?_⟩
  · rw [ht]
    exact regLookup_remove_self reg id
  · intro task
    rw [ht]
    simp
  · intro q
    rw [ht]
    simp
  · rw [ht]
    simp

/-- Witness for C10_terminate_trywait_error: terminating session 6,
whose liveness re-check errors, removes the entry, returns the Pty
error, and stops after the re-check. -/
theorem C10_terminate_trywait_error_witness :
    terminate [(6, badWaitSession 6 2)] 6
      = ⟨regRemove [(6, badWaitSession 6 2)] 6,
         Except.error (PtyError.Pty "wait failed"),
         [Action.removeEntry 6, Action.sendSigterm 42, Action.sleepMs 2000,
          Action.checkTryWait]⟩ :=
  (C10_terminate_trywait_error [(6, badWaitSession 6 2)] 6
    (badWaitSession 6 2) "wait failed" 42 (by decide) rfl rfl).1

end AgentsMonitor
